import Mathlib

/-!
Shallow embedding of the telemetry-decoding and workout-scheduling core of
the rust-cycle repository, together with proofs of the specification's
claims about it.

Modelling conventions:
* Rust `u8`/`u16`/`u32`/`usize` values are modelled as `Nat`; wherever the
  source performs arithmetic that can wrap, the wrap is made explicit with
  `% 2^w` over `Int`.
* Rust `i16` values are modelled as `Int` together with explicit
  reinterpretation functions (`i16_of_u16`, `u16_of_i16`, `wrap_i16`).
* Rust `f64` values are modelled as `Rat`.  All time values handled by this
  code are dyadic rationals of the form `k / 1024` or `k / 2048` with
  magnitude below 128, so every addition, subtraction and comparison the
  source performs on them is exact in `f64`; the only inexact `f64`
  operation in the modelled code is the final rpm division, and where a
  claim mentions a printed `f64` value the proof relates the exact rational
  result to the nearest binary64 value explicitly.
-/

/-- `u16::from_le_bytes([b0, b1])` on byte values. -/
def u16_le (b0 b1 : ℕ) : ℕ := b0 + 256 * b1

/-- `u32::from_le_bytes([b0, b1, b2, b3])` on byte values. -/
def u32_le (b0 b1 b2 b3 : ℕ) : ℕ := b0 + 256 * b1 + 65536 * b2 + 16777216 * b3

/-- Reinterpretation `x as i16` of an unsigned 16-bit value `x : u16`. -/
def i16_of_u16 (n : ℕ) : ℤ := if n < 32768 then (n : ℤ) else (n : ℤ) - 65536

/-- Reinterpretation `x as u16` of a signed 16-bit value `x : i16`. -/
def u16_of_i16 (z : ℤ) : ℕ := (z % 65536).toNat

/-- Two's-complement wrap of an integer into the `i16` range, the result of
Rust release-mode `i16` addition. -/
def wrap_i16 (z : ℤ) : ℤ := (z + 32768) % 65536 - 32768

/-- `i16::from_le_bytes([b0, b1])` on byte values. -/
def i16_le (b0 b1 : ℕ) : ℤ := i16_of_u16 (u16_le b0 b1)

/-!  ## src/utils.rs  -/

namespace utils

/-- `utils::lift_a2_option`: apply `f` when both options are present. -/
def lift_a2_option (a : Option α) (b : Option β) (f : α → β → γ) : Option γ :=
  match a, b with
  | some a, some b => some (f a b)
  | _, _ => none

/-- `utils::sequence_option_option`: Haskell `sequence` on nested options. -/
def sequence_option_option (a : Option (Option α)) : Option (Option α) :=
  match a with
  | some x =>
    match x with
    | some y => some (some y)
    | none => none
  | none => some none

end utils

/-!  ## src/ble/revolution_data.rs  -/

/-- `RevolutionData`: a revolution counter (u32) together with the time of
the last revolution edge in seconds (f64, modelled as `Rat`). -/
structure RevolutionData where
  revolution_count : ℕ
  last_revolution_event_time : ℚ
  deriving DecidableEq, Inhabited

namespace revolution_data

/-- `revolution_data::checked_duration`: elapsed seconds between the
previous (optional, defaulting to time 0.0) and current snapshot, adding
the 64-second wrap period `0b1000000` when the current time is smaller. -/
def checked_duration (a : Option RevolutionData) (b : RevolutionData) : ℚ :=
  let a_last_revolution_event_time := a.elim 0 (fun x => x.last_revolution_event_time)
  if a_last_revolution_event_time ≤ b.last_revolution_event_time then
    b.last_revolution_event_time - a_last_revolution_event_time
  else
    64 + b.last_revolution_event_time - a_last_revolution_event_time

/-- The `new_revolutions` computation of
`revolution_data::checked_crank_rpm_and_new_count`: plain difference when
the count increased, otherwise `0x10000 + b - a` as u32 arithmetic (the
16-bit wrap assumption; the `% 2^32` makes the u32 wrap explicit). -/
def crank_new_revolutions (a : Option RevolutionData) (b : RevolutionData) : ℕ :=
  let a_revolution_count := a.elim 0 (fun x => x.revolution_count)
  if a_revolution_count < b.revolution_count then
    b.revolution_count - a_revolution_count
  else
    ((65536 + (b.revolution_count : ℤ) - (a_revolution_count : ℤ)) % 4294967296).toNat

/-- The `new_revolutions` computation of the increasing-count branch of
`revolution_data::checked_wheel_rpm_and_new_count`. -/
def wheel_new_revolutions (a : Option RevolutionData) (b : RevolutionData) : ℕ :=
  b.revolution_count - a.elim 0 (fun x => x.revolution_count)

/-- `revolution_data::checked_crank_rpm_and_new_count`. -/
def checked_crank_rpm_and_new_count (a : Option RevolutionData) (b : RevolutionData) :
    Option (ℚ × ℕ) :=
  let duration := checked_duration a b
  if duration = 0 then
    none
  else
    let new_revolutions := crank_new_revolutions a b
    let rpm := (new_revolutions : ℚ) * 60 / duration
    if 271 < rpm then none else some (rpm, new_revolutions)

/-- `revolution_data::checked_wheel_rpm_and_new_count`, with an explicit
fuel parameter for the self-recursive reset branch.  In the source the
recursive call always passes `None` as the previous snapshot, so every
terminating execution recurses at most once and fuel `2` is exact; the one
divergence (current count `0` with nonzero duration, on which the source
loops forever) is modelled as `none` at fuel exhaustion. -/
def checked_wheel_go (fuel : ℕ) (a : Option RevolutionData) (b : RevolutionData) :
    Option (ℚ × ℕ) :=
  match fuel with
  | 0 => none
  | fuel + 1 =>
    let duration := checked_duration a b
    if duration = 0 then
      none
    else
      let a_revolution_count := a.elim 0 (fun x => x.revolution_count)
      if a_revolution_count < b.revolution_count then
        let new_revolutions := b.revolution_count - a_revolution_count
        let rpm := (new_revolutions : ℚ) * 60 / duration
        if 1250 < rpm then none else some (rpm, new_revolutions)
      else
        checked_wheel_go fuel none b

/-- `revolution_data::checked_wheel_rpm_and_new_count`. -/
def checked_wheel_rpm_and_new_count (a : Option RevolutionData) (b : RevolutionData) :
    Option (ℚ × ℕ) :=
  checked_wheel_go 2 a b

end revolution_data

/-!  ## src/ble/csc_measurement.rs  -/

/-- `CscMeasurement`: optional wheel and crank revolution data. -/
structure CscMeasurement where
  wheel : Option RevolutionData
  crank : Option RevolutionData
  deriving DecidableEq

namespace csc_measurement

/-- `csc_measurement::parse_csc_measurement`.  The source indexes into a
`Vec<u8>` and panics when the payload is shorter than its flags advertise;
out-of-range access is modelled as the byte `0`. -/
def parse_csc_measurement (data : List ℕ) : CscMeasurement :=
  let byte := fun i => data.getD i 0
  let has_wheel_data := byte 0 &&& 1 == 1
  let has_crank_data := byte 0 &&& 2 == 2
  let wheel_index := 1
  let crank_index := wheel_index + if has_wheel_data then 6 else 0
  { wheel :=
      if has_wheel_data then
        some
          { revolution_count :=
              u32_le (byte wheel_index) (byte (wheel_index + 1)) (byte (wheel_index + 2))
                (byte (wheel_index + 3))
            last_revolution_event_time :=
              (u16_le (byte (wheel_index + 4)) (byte (wheel_index + 4 + 1)) : ℚ) / 1024 }
      else none
    crank :=
      if has_crank_data then
        some
          { revolution_count :=
              u32_le (byte crank_index) (byte (crank_index + 1)) 0 0
            last_revolution_event_time :=
              (u16_le (byte (crank_index + 2)) (byte (crank_index + 3)) : ℚ) / 1024 }
      else none }

/-- `csc_measurement::checked_crank_rpm_and_new_count_rev_data`; the source
body is a verbatim duplicate of `revolution_data::checked_crank_rpm_and_new_count`. -/
def checked_crank_rpm_and_new_count_rev_data :
    Option RevolutionData → RevolutionData → Option (ℚ × ℕ) :=
  revolution_data.checked_crank_rpm_and_new_count

/-- `csc_measurement::checked_wheel_rpm_and_new_count_rev_data`; the source
body is a verbatim duplicate of `revolution_data::checked_wheel_rpm_and_new_count`. -/
def checked_wheel_rpm_and_new_count_rev_data :
    Option RevolutionData → RevolutionData → Option (ℚ × ℕ) :=
  revolution_data.checked_wheel_rpm_and_new_count

/-- `csc_measurement::checked_wheel_rpm_and_new_count`: aborts with `none`
when a previous measurement is present but lacks wheel data. -/
def checked_wheel_rpm_and_new_count (a : Option CscMeasurement) (b : CscMeasurement) :
    Option (ℚ × ℕ) :=
  let a := utils.sequence_option_option (a.map (fun x => x.wheel))
  let b := b.wheel
  (utils.lift_a2_option a b checked_wheel_rpm_and_new_count_rev_data).bind id

/-- `csc_measurement::checked_crank_rpm_and_new_count`: aborts with `none`
when a previous measurement is present but lacks crank data. -/
def checked_crank_rpm_and_new_count (a : Option CscMeasurement) (b : CscMeasurement) :
    Option (ℚ × ℕ) :=
  let a := utils.sequence_option_option (a.map (fun x => x.crank))
  let b := b.crank
  (utils.lift_a2_option a b checked_crank_rpm_and_new_count_rev_data).bind id

end csc_measurement

/-!  ## src/ble/cycling_power_measurement.rs  -/

/-- `AccumulatedTorqueSource`: which rotating part the torque sum refers to. -/
inductive AccumulatedTorqueSource where
  | Wheel
  | Crank
  deriving DecidableEq

/-- `CyclingPowerMeasurement`: decoded cycling-power payload. -/
structure CyclingPowerMeasurement where
  instantaneous_power : ℤ
  pedal_power_balance_percent : Option ℚ
  accumulated_torque : Option (AccumulatedTorqueSource × ℚ)
  wheel_revolution_data : Option RevolutionData
  crank_revolution_data : Option RevolutionData
  deriving DecidableEq

namespace cycling_power_measurement

/-- `cycling_power_measurement::parse_cycling_power_measurement`.  As with
the CSC parser, the source assumes a valid payload; out-of-range access is
modelled as the byte `0`. -/
def parse_cycling_power_measurement (data : List ℕ) : CyclingPowerMeasurement :=
  let byte := fun i => data.getD i 0
  let has_pedal_power_balance := byte 0 &&& 1 == 1
  let has_accumulated_torque := byte 0 &&& 0b100 == 0b100
  let has_wheel_data := byte 0 &&& 0b10000 == 0b10000
  let has_crank_data := byte 0 &&& 0b100000 == 0b100000
  let power_index := 2
  let pedal_power_balance_index := 4
  let accumulated_torque_index :=
    pedal_power_balance_index + if has_pedal_power_balance then 1 else 0
  let wheel_data_index := accumulated_torque_index + if has_accumulated_torque then 2 else 0
  let crank_data_index := wheel_data_index + if has_wheel_data then 6 else 0
  { instantaneous_power := i16_le (byte power_index) (byte (power_index + 1))
    pedal_power_balance_percent :=
      if has_pedal_power_balance then
        some ((byte pedal_power_balance_index : ℚ) / 2)
      else none
    accumulated_torque :=
      if has_accumulated_torque then
        let source :=
          if byte 0 &&& 0b1000 == 0b1000 then AccumulatedTorqueSource.Crank
          else AccumulatedTorqueSource.Wheel
        let torque :=
          (u16_le (byte accumulated_torque_index) (byte (accumulated_torque_index + 1)) : ℚ) / 32
        some (source, torque)
      else none
    -- This is /2048 instead of /1024, unlike CSC wheel data.
    wheel_revolution_data :=
      if has_wheel_data then
        some
          { revolution_count :=
              u32_le (byte wheel_data_index) (byte (wheel_data_index + 1))
                (byte (wheel_data_index + 2)) (byte (wheel_data_index + 3))
            last_revolution_event_time :=
              (u16_le (byte (wheel_data_index + 4)) (byte (wheel_data_index + 4 + 1)) : ℚ) / 2048 }
      else none
    crank_revolution_data :=
      if has_crank_data then
        some
          { revolution_count :=
              u32_le (byte crank_data_index) (byte (crank_data_index + 1)) 0 0
            last_revolution_event_time :=
              (u16_le (byte (crank_data_index + 2)) (byte (crank_data_index + 2 + 1)) : ℚ) / 1024 }
      else none }

end cycling_power_measurement

/-!  ## Payload constructors for the round-trip property

These build a payload from field values under the byte layout stated in the
specification (flag bits selecting optional little-endian blocks), to be fed
to the parsers above. -/

/-- CSC payload with the given flag bits and field values: flag byte, then
an optional wheel block (u32 count, u16 time), then an optional crank block
(u16 count, u16 time), all little-endian. -/
def csc_payload (hasW hasC : Bool) (wc wt cc ct : ℕ) : List ℕ :=
  [(if hasW then 1 else 0) + (if hasC then 2 else 0)]
    ++ (if hasW then [wc % 256, wc / 256 % 256, wc / 65536 % 256, wc / 16777216 % 256,
          wt % 256, wt / 256] else [])
    ++ (if hasC then [cc % 256, cc / 256, ct % 256, ct / 256] else [])

/-- Cycling-power payload with the given flag bits and field values: two
flag bytes (bit0 balance, bit2 torque, bit3 torque source, bit4 wheel, bit5
crank), an i16 power at bytes 2..4, then the optional balance byte, torque
u16, wheel block (u32 count, u16 time) and crank block (u16 count, u16
time), all little-endian. -/
def cpm_payload (hasB hasT srcCrank hasW hasC : Bool) (p : ℤ) (bal tq wc wt cc ct : ℕ) :
    List ℕ :=
  [(if hasB then 1 else 0) + (if hasT then 4 else 0) + (if srcCrank then 8 else 0)
      + (if hasW then 16 else 0) + (if hasC then 32 else 0), 0,
    u16_of_i16 p % 256, u16_of_i16 p / 256]
    ++ (if hasB then [bal] else [])
    ++ (if hasT then [tq % 256, tq / 256] else [])
    ++ (if hasW then [wc % 256, wc / 256 % 256, wc / 65536 % 256, wc / 16777216 % 256,
          wt % 256, wt / 256] else [])
    ++ (if hasC then [cc % 256, cc / 256, ct % 256, ct / 256] else [])

/-!  ## src/cycle_tree.rs  -/

/-- `CycleTree`: a leaf value, or a repeat count paired with a list of
subtrees. -/
inductive CycleTree (L : Type) where
  | Leaf (l : L)
  | Node (p : ℕ × List (CycleTree L))

namespace cycle_tree

/-- `cycle_tree::flatten`: the accumulator `v` models the `&mut Vec<L>` the
source pushes into; the two `foldl`s model the `for _ in 0..c` and
`for w in ws` loops. -/
def flatten {L : Type} (cycle_tree : CycleTree L) (v : List L) : List L :=
  match cycle_tree with
  | .Leaf l => v ++ [l]
  | .Node (c, ws) =>
    (List.range c).foldl
      (fun acc _ => ws.attach.foldl (fun acc2 w => flatten w.1 acc2) acc) v
termination_by sizeOf cycle_tree
decreasing_by
  simp_wf
  have hmem : sizeOf w.1 < sizeOf ws := List.sizeOf_lt_of_mem w.2
  omega

/-- `CycleTree::into_iter`: flatten into a fresh vector and iterate it. -/
def into_iter {L : Type} (t : CycleTree L) : List L :=
  flatten t []

end cycle_tree

/-!  ## src/workout.rs  -/

namespace workout

/-- The argument the scheduler passes to `set_power`:
`((power as i16) + last_offset) as u16`, with release-mode wrapping `i16`
addition made explicit. -/
def set_power_arg (power : ℕ) (offset : ℤ) : ℕ :=
  u16_of_i16 (wrap_i16 (i16_of_u16 power + offset))

/-- One observation of the shared `WorkoutState` and of `start.elapsed()`
made by an iteration of the 50 ms poll loop.  Durations are modelled as
natural numbers of an arbitrary fixed time unit. -/
structure PollObs where
  running : Bool
  offset : ℤ
  elapsed : ℕ

/-- The environment of one step of the outer `for (wait, power)` loop: the
value of `start.elapsed()` when the step is reached, and the poll-loop
observations that follow if the step is not skipped. -/
structure StepObs where
  reachElapsed : ℕ
  polls : List PollObs

/-- The inner 50 ms poll loop of `Workout::run`, driven by a finite list of
observations of the shared state and clock.  Returns the `set_power`
arguments emitted, the final `last_offset`, and whether the loop broke with
`terminate = true`.  Exhausting the observation list models the cutoff time
eventually passing. -/
def workout_inner (d : ℕ) (power : ℕ) (last_offset : ℤ) :
    List PollObs → List ℕ × ℤ × Bool
  | [] => ([], last_offset, false)
  | p :: ps =>
    if p.running = false then
      ([], last_offset, true)
    else
      let step :=
        if p.offset = last_offset then (([] : List ℕ), last_offset)
        else ([set_power_arg power p.offset], p.offset)
      if d < p.elapsed then
        (step.1, step.2, false)
      else
        let rest := workout_inner d power step.2 ps
        (step.1 ++ rest.1, rest.2.1, rest.2.2)

/-- The outer loop of the thread spawned by `Workout::run`, over the
flattened `(wait, power)` steps paired with their clock/state observations.
`d` is the accumulated cutoff duration and `last_offset` the mutable offset
cache; the result is the ordered list of arguments passed to `set_power`.
A step whose cutoff has already passed when it is reached
(`reachElapsed > d + wait`, i.e. `d.checked_sub(e)` is `None`) emits
nothing. -/
def workout_run (d : ℕ) (last_offset : ℤ) :
    List ((ℕ × ℕ) × StepObs) → List ℕ
  | [] => []
  | ((wait, power), obs) :: rest =>
    let d := d + wait
    if obs.reachElapsed ≤ d then
      let inner := workout_inner d power last_offset obs.polls
      set_power_arg power last_offset ::
        (inner.1 ++ if inner.2.2 then [] else workout_run d inner.2.1 rest)
    else
      workout_run d last_offset rest

end workout

/-!  ## Shared helper lemmas  -/

lemma u16_le_mod_div (v : ℕ) : u16_le (v % 256) (v / 256) = v := by
  unfold u16_le; omega

lemma u32_le_mod_div (v : ℕ) :
    u32_le (v % 256) (v / 256 % 256) (v / 65536 % 256) (v / 16777216 % 256) = v % 4294967296 := by
  unfold u32_le; omega

lemma u32_le_mod_div16 (v : ℕ) : u32_le (v % 256) (v / 256) 0 0 = v := by
  unfold u32_le; omega

lemma i16_le_mod_div (p : ℤ) (h1 : -32768 ≤ p) (h2 : p < 32768) :
    i16_le (u16_of_i16 p % 256) (u16_of_i16 p / 256) = p := by
  unfold i16_le i16_of_u16 u16_le u16_of_i16
  split_ifs <;> omega

lemma checked_duration_some (a b : RevolutionData) :
    revolution_data.checked_duration (some a) b =
      if a.last_revolution_event_time ≤ b.last_revolution_event_time then
        b.last_revolution_event_time - a.last_revolution_event_time
      else 64 + b.last_revolution_event_time - a.last_revolution_event_time := rfl

/-- The reset branch of the wheel computation recurses exactly once, always
with `none` as the previous snapshot, so one unit of fuel is as good as two
when the previous snapshot is `none`. -/
lemma checked_wheel_go_none_fuel (b : RevolutionData) :
    revolution_data.checked_wheel_go 1 none b = revolution_data.checked_wheel_go 2 none b := by
  simp only [revolution_data.checked_wheel_go]
  split_ifs <;> rfl

/-- A previous snapshot with count `0` and time `0.0` behaves exactly like
an absent previous snapshot for the crank computation. -/
lemma checked_crank_zero_baseline (b : RevolutionData) :
    revolution_data.checked_crank_rpm_and_new_count none b =
      revolution_data.checked_crank_rpm_and_new_count (some ⟨0, 0⟩) b := rfl

/-- A previous snapshot with count `0` and time `0.0` behaves exactly like
an absent previous snapshot for the wheel computation. -/
lemma checked_wheel_zero_baseline (b : RevolutionData) :
    revolution_data.checked_wheel_rpm_and_new_count none b =
      revolution_data.checked_wheel_rpm_and_new_count (some ⟨0, 0⟩) b := rfl

/-!  ## Claim theorems  -/

/-- C1: for every crank or wheel delta computation the elapsed time is
`current - previous` when `current.last_revolution_event_time` is at least
the previous one (the previous time defaulting to `0.0` when absent), and
`64.0 + current - previous` otherwise; and whenever the elapsed time is
`0.0` both delta functions return `none`. -/
theorem C1_checked_duration_and_zero_elapsed (a : Option RevolutionData) (b : RevolutionData) :
    (a.elim 0 (fun x => x.last_revolution_event_time) ≤ b.last_revolution_event_time →
      revolution_data.checked_duration a b =
        b.last_revolution_event_time - a.elim 0 (fun x => x.last_revolution_event_time)) ∧
    (b.last_revolution_event_time < a.elim 0 (fun x => x.last_revolution_event_time) →
      revolution_data.checked_duration a b =
        64 + b.last_revolution_event_time - a.elim 0 (fun x => x.last_revolution_event_time)) ∧
    (revolution_data.checked_duration a b = 0 →
      revolution_data.checked_crank_rpm_and_new_count a b = none ∧
      revolution_data.checked_wheel_rpm_and_new_count a b = none) := by
  refine ⟨fun h => ?_, fun h => ?_, fun h => ⟨?_, ?_⟩⟩
  · simp [revolution_data.checked_duration, h]
  · simp [revolution_data.checked_duration, not_le.mpr h]
  · simp [revolution_data.checked_crank_rpm_and_new_count, h]
  · simp [revolution_data.checked_wheel_rpm_and_new_count, revolution_data.checked_wheel_go, h]

/-- Witness for C1 at concrete inputs: identical snapshots give elapsed
time `0.0` and a `none` crank delta, and a backwards time gives the
wrapped elapsed time. -/
theorem C1_witness :
    revolution_data.checked_duration (some ⟨0, 5⟩) ⟨0, 5⟩ = 0 ∧
    revolution_data.checked_crank_rpm_and_new_count (some ⟨0, 5⟩) ⟨0, 5⟩ = none ∧
    revolution_data.checked_duration (some ⟨0, 40⟩) ⟨0, 10⟩ = 64 + 10 - 40 := by
  have h1 := (C1_checked_duration_and_zero_elapsed (some ⟨0, 5⟩) ⟨0, 5⟩).1 (by norm_num)
  have h1' : revolution_data.checked_duration (some ⟨0, 5⟩) ⟨0, 5⟩ = 0 := by simpa using h1
  have h2 := ((C1_checked_duration_and_zero_elapsed (some ⟨0, 5⟩) ⟨0, 5⟩).2.2 h1').1
  have h3 := (C1_checked_duration_and_zero_elapsed (some ⟨0, 40⟩) ⟨0, 10⟩).2.1 (by norm_num)
  exact ⟨h1', h2, by simpa using h3⟩

/-- Counterexample to C2 as frozen: at the claim's own input the previous
count 4434 is strictly below the current count 4436, so the new count is
computed by the plain-difference branch; the 16-bit counter-wrap branch
`0x10000 + b - a` (which would report 65538 revolutions) does not run, so
the claim's assertion that this example exercises the counter-wrap branch
is false. -/
theorem C2_counterexample :
    (4434 : ℕ) < 4436 ∧
    revolution_data.crank_new_revolutions (some ⟨4434, (62.9365234375 : ℚ)⟩)
        ⟨4436, (0.1982421875 : ℚ)⟩ = 4436 - 4434 ∧
    revolution_data.crank_new_revolutions (some ⟨4434, (62.9365234375 : ℚ)⟩)
        ⟨4436, (0.1982421875 : ℚ)⟩ ≠
      ((65536 + (4436 : ℤ) - 4434) % 4294967296).toNat := by
  refine ⟨by norm_num, ?_, ?_⟩
  · norm_num [revolution_data.crank_new_revolutions]
  · norm_num [revolution_data.crank_new_revolutions]
    decide

/-- C2 (amended): the crank delta of the two snapshots returns `some` with
`2` new revolutions and the exact rate `30720 / 323`, exercising the
64-second time-wrap branch of `checked_duration` and the plausible-rate
path; the revolution count increased (4434 < 4436), so the new count comes
from the plain-difference branch, not the 16-bit counter-wrap branch.  The
spec states the result as the `f64` value `95.10835913312694`; the last
two conjuncts show that the exact rational result and that decimal literal
both lie within half an ulp (`2 ^ (-47)`) of the binary64 value
`6692655792996403 / 2 ^ 46`, hence they denote the same `f64`. -/
theorem C2_crank_wrap_example :
    csc_measurement.checked_crank_rpm_and_new_count
        (some ⟨none, some ⟨4434, (62.9365234375 : ℚ)⟩⟩)
        ⟨none, some ⟨4436, (0.1982421875 : ℚ)⟩⟩ =
      some ((30720 : ℚ) / 323, 2) ∧
    ((0.1982421875 : ℚ) < 62.9365234375 ∧
      revolution_data.checked_duration (some ⟨4434, (62.9365234375 : ℚ)⟩)
          ⟨4436, (0.1982421875 : ℚ)⟩ = 64 + 0.1982421875 - 62.9365234375) ∧
    ((4434 : ℕ) < 4436 ∧
      revolution_data.crank_new_revolutions (some ⟨4434, (62.9365234375 : ℚ)⟩)
          ⟨4436, (0.1982421875 : ℚ)⟩ = 4436 - 4434) ∧
    |(30720 : ℚ) / 323 - 6692655792996403 / 70368744177664| < 1 / 140737488355328 ∧
    |(95.10835913312694 : ℚ) - 6692655792996403 / 70368744177664| < 1 / 140737488355328 := by
  refine ⟨?_, ⟨by norm_num, ?_⟩, ⟨by norm_num, ?_⟩, ?_, ?_⟩
  · norm_num [csc_measurement.checked_crank_rpm_and_new_count,
      csc_measurement.checked_crank_rpm_and_new_count_rev_data,
      revolution_data.checked_crank_rpm_and_new_count, revolution_data.checked_duration,
      revolution_data.crank_new_revolutions, utils.sequence_option_option, utils.lift_a2_option]
  · norm_num [revolution_data.checked_duration]
  · norm_num [revolution_data.crank_new_revolutions]
  · rw [abs_sub_lt_iff]; constructor <;> norm_num
  · rw [abs_sub_lt_iff]; constructor <;> norm_num

/-- C3: when the current wheel revolution count does not exceed the
previous one and the elapsed time is nonzero, the wheel delta is computed
exactly as if there were no previous snapshot at all; in particular the
spec's concrete reset example yields `some (80.0, 2)`. -/
theorem C3_wheel_reset_as_no_previous :
    (∀ (a b : RevolutionData), b.revolution_count ≤ a.revolution_count →
      revolution_data.checked_duration (some a) b ≠ 0 →
      revolution_data.checked_wheel_rpm_and_new_count (some a) b =
        revolution_data.checked_wheel_rpm_and_new_count none b) ∧
    csc_measurement.checked_wheel_rpm_and_new_count
        (some ⟨some ⟨4434, (62.9365234375 : ℚ)⟩, none⟩) ⟨some ⟨2, (1.5 : ℚ)⟩, none⟩ =
      some (80, 2) := by
  constructor
  · intro a b hc hdur
    unfold revolution_data.checked_wheel_rpm_and_new_count
    rw [show revolution_data.checked_wheel_go 2 (some a) b =
        revolution_data.checked_wheel_go 1 none b by
      simp only [revolution_data.checked_wheel_go]
      rw [if_neg hdur, if_neg (by simpa using Nat.not_lt.mpr hc)]]
    exact checked_wheel_go_none_fuel b
  · norm_num [csc_measurement.checked_wheel_rpm_and_new_count,
      csc_measurement.checked_wheel_rpm_and_new_count_rev_data,
      revolution_data.checked_wheel_rpm_and_new_count, revolution_data.checked_wheel_go,
      revolution_data.checked_duration, utils.sequence_option_option, utils.lift_a2_option]

/-- Witness for C3: the spec's reset example, where the count decreased
from 4434 to 2, equals the no-previous computation. -/
theorem C3_witness :
    revolution_data.checked_wheel_rpm_and_new_count
        (some ⟨4434, (62.9365234375 : ℚ)⟩) ⟨2, (1.5 : ℚ)⟩ =
      revolution_data.checked_wheel_rpm_and_new_count none ⟨2, (1.5 : ℚ)⟩ := by
  refine C3_wheel_reset_as_no_previous.1 ⟨4434, (62.9365234375 : ℚ)⟩ ⟨2, (1.5 : ℚ)⟩
    (by norm_num) ?_
  norm_num [revolution_data.checked_duration]

/-- C4: whenever the elapsed time is nonzero, the crank delta returns
`none` exactly when the computed rate `new_count * 60.0 / elapsed` exceeds
271 rpm and otherwise returns `some (rate, new_count)`; likewise the wheel
delta, in its increasing-count branch, returns `none` exactly when the
rate exceeds 1250 rpm and otherwise `some (rate, new_count)`. -/
theorem C4_plausibility_ceiling (a : Option RevolutionData) (b : RevolutionData)
    (hdur : revolution_data.checked_duration a b ≠ 0) :
    ((271 : ℚ) <
        (revolution_data.crank_new_revolutions a b : ℚ) * 60 /
          revolution_data.checked_duration a b →
      revolution_data.checked_crank_rpm_and_new_count a b = none) ∧
    ((revolution_data.crank_new_revolutions a b : ℚ) * 60 /
        revolution_data.checked_duration a b ≤ 271 →
      revolution_data.checked_crank_rpm_and_new_count a b =
        some ((revolution_data.crank_new_revolutions a b : ℚ) * 60 /
            revolution_data.checked_duration a b,
          revolution_data.crank_new_revolutions a b)) ∧
    (a.elim 0 (fun x => x.revolution_count) < b.revolution_count →
      ((1250 : ℚ) <
          (revolution_data.wheel_new_revolutions a b : ℚ) * 60 /
            revolution_data.checked_duration a b →
        revolution_data.checked_wheel_rpm_and_new_count a b = none) ∧
      ((revolution_data.wheel_new_revolutions a b : ℚ) * 60 /
          revolution_data.checked_duration a b ≤ 1250 →
        revolution_data.checked_wheel_rpm_and_new_count a b =
          some ((revolution_data.wheel_new_revolutions a b : ℚ) * 60 /
              revolution_data.checked_duration a b,
            revolution_data.wheel_new_revolutions a b))) := by
  refine ⟨fun h => ?_, fun h => ?_, fun hlt => ⟨fun h => ?_, fun h => ?_⟩⟩
  · simp only [revolution_data.checked_crank_rpm_and_new_count]
    rw [if_neg hdur, if_pos h]
  · simp only [revolution_data.checked_crank_rpm_and_new_count]
    rw [if_neg hdur, if_neg (not_lt.mpr h)]
  · simp only [revolution_data.checked_wheel_rpm_and_new_count,
      revolution_data.checked_wheel_go]
    rw [if_neg hdur, if_pos hlt, if_pos (by simpa [revolution_data.wheel_new_revolutions] using h)]
  · simp only [revolution_data.checked_wheel_rpm_and_new_count,
      revolution_data.checked_wheel_go]
    rw [if_neg hdur, if_pos hlt,
      if_neg (not_lt.mpr (by simpa [revolution_data.wheel_new_revolutions] using h))]
    simp [revolution_data.wheel_new_revolutions]

/-- Witness for C4 at the test suite's concrete inputs: 5 crank
revolutions in one second (300 rpm) and 21 wheel revolutions in one second
(1260 rpm) are rejected, while 2 revolutions in 1.5 seconds (80 rpm) are
reported. -/
theorem C4_witness :
    revolution_data.checked_crank_rpm_and_new_count (some ⟨4434, 1⟩) ⟨4439, 2⟩ = none ∧
    revolution_data.checked_crank_rpm_and_new_count none ⟨2, (1.5 : ℚ)⟩ = some (80, 2) ∧
    revolution_data.checked_wheel_rpm_and_new_count (some ⟨4434, 1⟩) ⟨4455, 2⟩ = none ∧
    revolution_data.checked_wheel_rpm_and_new_count none ⟨2, (1.5 : ℚ)⟩ = some (80, 2) := by
  refine ⟨?_, ?_, ?_, ?_⟩
  · exact (C4_plausibility_ceiling (some ⟨4434, 1⟩) ⟨4439, 2⟩
      (by norm_num [revolution_data.checked_duration])).1
      (by norm_num [revolution_data.crank_new_revolutions, revolution_data.checked_duration])
  · have h := (C4_plausibility_ceiling none ⟨2, (1.5 : ℚ)⟩
      (by norm_num [revolution_data.checked_duration])).2.1
      (by norm_num [revolution_data.crank_new_revolutions, revolution_data.checked_duration])
    norm_num [revolution_data.crank_new_revolutions, revolution_data.checked_duration] at h ⊢
    exact h
  · exact ((C4_plausibility_ceiling (some ⟨4434, 1⟩) ⟨4455, 2⟩
      (by norm_num [revolution_data.checked_duration])).2.2 (by norm_num)).1
      (by norm_num [revolution_data.wheel_new_revolutions, revolution_data.checked_duration])
  · have h := ((C4_plausibility_ceiling none ⟨2, (1.5 : ℚ)⟩
      (by norm_num [revolution_data.checked_duration])).2.2 (by norm_num)).2
      (by norm_num [revolution_data.wheel_new_revolutions, revolution_data.checked_duration])
    norm_num [revolution_data.wheel_new_revolutions, revolution_data.checked_duration] at h ⊢
    exact h

/-- C5: a previous measurement that is present but lacks the relevant
sub-reading makes the checked delta `none`, while an entirely absent
previous measurement is computed against a zero baseline count and time
(an explicit previous snapshot of count `0` at time `0.0`). -/
theorem C5_missing_subreading (a b : CscMeasurement) (rd : RevolutionData) :
    (b.crank = some rd → a.crank = none →
      csc_measurement.checked_crank_rpm_and_new_count (some a) b = none) ∧
    (b.crank = some rd →
      csc_measurement.checked_crank_rpm_and_new_count none b =
        revolution_data.checked_crank_rpm_and_new_count (some ⟨0, 0⟩) rd) ∧
    (b.wheel = some rd → a.wheel = none →
      csc_measurement.checked_wheel_rpm_and_new_count (some a) b = none) ∧
    (b.wheel = some rd →
      csc_measurement.checked_wheel_rpm_and_new_count none b =
        revolution_data.checked_wheel_rpm_and_new_count (some ⟨0, 0⟩) rd) := by
  refine ⟨fun hb ha => ?_, fun hb => ?_, fun hb ha => ?_, fun hb => ?_⟩
  · simp [csc_measurement.checked_crank_rpm_and_new_count, ha,
      utils.sequence_option_option, utils.lift_a2_option]
  · rw [← checked_crank_zero_baseline]
    simp [csc_measurement.checked_crank_rpm_and_new_count,
      csc_measurement.checked_crank_rpm_and_new_count_rev_data, hb,
      utils.sequence_option_option, utils.lift_a2_option]
  · simp [csc_measurement.checked_wheel_rpm_and_new_count, ha,
      utils.sequence_option_option, utils.lift_a2_option]
  · rw [← checked_wheel_zero_baseline]
    simp [csc_measurement.checked_wheel_rpm_and_new_count,
      csc_measurement.checked_wheel_rpm_and_new_count_rev_data, hb,
      utils.sequence_option_option, utils.lift_a2_option]

/-- Witness for C5 at the test suite's concrete inputs: a previous
measurement without crank data forces `none`, and an absent previous
measurement yields the zero-baseline result. -/
theorem C5_witness :
    csc_measurement.checked_crank_rpm_and_new_count (some ⟨none, none⟩)
        ⟨none, some ⟨4436, (0.1982421875 : ℚ)⟩⟩ = none ∧
    csc_measurement.checked_crank_rpm_and_new_count none ⟨none, some ⟨2, (1.5 : ℚ)⟩⟩ =
      revolution_data.checked_crank_rpm_and_new_count (some ⟨0, 0⟩) ⟨2, (1.5 : ℚ)⟩ := by
  constructor
  · exact (C5_missing_subreading ⟨none, none⟩ ⟨none, some ⟨4436, (0.1982421875 : ℚ)⟩⟩
      ⟨4436, (0.1982421875 : ℚ)⟩).1 rfl rfl
  · exact (C5_missing_subreading ⟨none, none⟩ ⟨none, some ⟨2, (1.5 : ℚ)⟩⟩
      ⟨2, (1.5 : ℚ)⟩).2.1 rfl

/-- C9: two crank snapshots with event times in `[0, 64)` and equal
revolution counts always yield a `none` crank delta: either the elapsed
time is `0.0`, or the equal-count case takes the 16-bit wrap branch and
reports `0x10000` new revolutions, whose rate exceeds 271 rpm for any
elapsed time below 64 seconds. -/
theorem C9_equal_crank_counts_none (a b : RevolutionData)
    (ha0 : 0 ≤ a.last_revolution_event_time) (ha : a.last_revolution_event_time < 64)
    (hb0 : 0 ≤ b.last_revolution_event_time) (hb : b.last_revolution_event_time < 64)
    (hc : a.revolution_count = b.revolution_count) :
    revolution_data.checked_crank_rpm_and_new_count (some a) b = none := by
  by_cases h0 : revolution_data.checked_duration (some a) b = 0
  · simp [revolution_data.checked_crank_rpm_and_new_count, h0]
  · have hlt : revolution_data.checked_duration (some a) b < 64 := by
      rw [checked_duration_some]
      split_ifs with h <;> linarith
    have hge : 0 ≤ revolution_data.checked_duration (some a) b := by
      rw [checked_duration_some]
      split_ifs with h <;> linarith
    have hpos : 0 < revolution_data.checked_duration (some a) b :=
      lt_of_le_of_ne hge (Ne.symm h0)
    have hnr : revolution_data.crank_new_revolutions (some a) b = 65536 := by
      unfold revolution_data.crank_new_revolutions
      simp only [Option.elim]
      rw [if_neg (by omega), hc]
      norm_num
      decide
    have hrpm : (271 : ℚ) <
        (revolution_data.crank_new_revolutions (some a) b : ℚ) * 60 /
          revolution_data.checked_duration (some a) b := by
      rw [hnr, lt_div_iff₀ hpos]
      push_cast
      nlinarith
    simp only [revolution_data.checked_crank_rpm_and_new_count]
    rw [if_neg h0, if_pos hrpm]

/-- Witness for C9: two identical-count snapshots a quarter of a second
apart give `none` even though the elapsed time is nonzero. -/
theorem C9_witness :
    revolution_data.checked_crank_rpm_and_new_count
      (some ⟨7, (1.25 : ℚ)⟩) ⟨7, (1.5 : ℚ)⟩ = none :=
  C9_equal_crank_counts_none ⟨7, (1.25 : ℚ)⟩ ⟨7, (1.5 : ℚ)⟩
    (by norm_num) (by norm_num) (by norm_num) (by norm_num) rfl

/-- C6: for every valid flag-byte combination, decoding a payload built
from given field values under the specified layout recovers exactly those
values: CSC flag bits 0/1 select the wheel (u32 count, u16 time / 1024.0)
and crank (u16 count zero-extended, u16 time / 1024.0) blocks in order;
cycling-power has an i16 power at bytes 2..4, an optional balance byte
/ 2.0, an optional u16 torque / 32.0 whose source is crank iff flag bit 3
is set, a wheel block whose time divides by 2048.0 and a crank block whose
time divides by 1024.0. -/
theorem C6_parser_round_trip :
    (∀ (hasW hasC : Bool) (wc wt cc ct : ℕ), wc < 4294967296 → wt < 65536 → cc < 65536 →
      ct < 65536 →
      csc_measurement.parse_csc_measurement (csc_payload hasW hasC wc wt cc ct) =
        ⟨if hasW then some ⟨wc, (wt : ℚ) / 1024⟩ else none,
         if hasC then some ⟨cc, (ct : ℚ) / 1024⟩ else none⟩) ∧
    (∀ (hasB hasT srcCrank hasW hasC : Bool) (p : ℤ) (bal tq wc wt cc ct : ℕ),
      -32768 ≤ p → p < 32768 → bal < 256 → tq < 65536 → wc < 4294967296 → wt < 65536 →
      cc < 65536 → ct < 65536 →
      cycling_power_measurement.parse_cycling_power_measurement
          (cpm_payload hasB hasT srcCrank hasW hasC p bal tq wc wt cc ct) =
        ⟨p, if hasB then some ((bal : ℚ) / 2) else none,
         if hasT then
           some (if srcCrank then AccumulatedTorqueSource.Crank
             else AccumulatedTorqueSource.Wheel, (tq : ℚ) / 32)
         else none,
         if hasW then some ⟨wc, (wt : ℚ) / 2048⟩ else none,
         if hasC then some ⟨cc, (ct : ℚ) / 1024⟩ else none⟩) := by
  constructor
  · intro hasW hasC wc wt cc ct h1 _h2 h3 _h4
    have hw : wc % 4294967296 = wc := Nat.mod_eq_of_lt h1
    cases hasW <;> cases hasC <;>
      simp +decide [csc_measurement.parse_csc_measurement, csc_payload, List.getD,
        u16_le_mod_div wt, u16_le_mod_div ct, u32_le_mod_div wc, u32_le_mod_div16 cc, hw]
  · intro hasB hasT srcCrank hasW hasC p bal tq wc wt cc ct hp1 hp2 _h0 _h1 h2 _h3 _h4 _h5
    have hw : wc % 4294967296 = wc := Nat.mod_eq_of_lt h2
    cases hasB <;> cases hasT <;> cases srcCrank <;> cases hasW <;> cases hasC <;>
      simp +decide [cycling_power_measurement.parse_cycling_power_measurement, cpm_payload,
        List.getD, u16_le_mod_div tq, u16_le_mod_div wt, u16_le_mod_div ct, u32_le_mod_div wc,
        u32_le_mod_div16 cc, i16_le_mod_div p hp1 hp2, hw]

/-- Witness for C6 at the test suite's concrete field values
(count `0x04030201`, times `0x0201`, power `0x0102`, balance `99`,
torque `0x0201`). -/
theorem C6_witness :
    csc_measurement.parse_csc_measurement (csc_payload true true 67305985 513 513 513) =
      ⟨some ⟨67305985, (513 : ℚ) / 1024⟩, some ⟨513, (513 : ℚ) / 1024⟩⟩ ∧
    cycling_power_measurement.parse_cycling_power_measurement
        (cpm_payload true true false true true 258 99 513 67305985 513 513 513) =
      ⟨258, some ((99 : ℚ) / 2), some (AccumulatedTorqueSource.Wheel, (513 : ℚ) / 32),
       some ⟨67305985, (513 : ℚ) / 2048⟩, some ⟨513, (513 : ℚ) / 1024⟩⟩ := by
  constructor
  · have h := C6_parser_round_trip.1 true true 67305985 513 513 513
      (by norm_num) (by norm_num) (by norm_num) (by norm_num)
    simpa using h
  · have h := C6_parser_round_trip.2 true true false true true 258 99 513 67305985 513 513 513
      (by norm_num) (by norm_num) (by norm_num) (by norm_num) (by norm_num) (by norm_num)
      (by norm_num) (by norm_num)
    simpa using h

/-!  ## CycleTree flattening lemmas  -/

lemma foldl_acc_of_pointwise {α β : Type} (g : β → List α → List α) (l : List β)
    (hg : ∀ x ∈ l, ∀ v, g x v = v ++ g x []) :
    ∀ v, l.foldl (fun acc x => g x acc) v = v ++ l.foldl (fun acc x => g x acc) [] := by
  induction l with
  | nil => intro v; simp
  | cons x xs ih =>
    intro v
    have hx := hg x (List.mem_cons_self x xs)
    have hxs : ∀ y ∈ xs, ∀ v, g y v = v ++ g y [] := fun y hy =>
      hg y (List.mem_cons_of_mem x hy)
    simp only [List.foldl_cons]
    rw [ih hxs (g x v), hx v, ih hxs (g x []), List.append_assoc]

/-- Pushing into the accumulator vector only appends: the final vector is
the starting vector followed by what a run from an empty vector pushes. -/
lemma flatten_append {L : Type} (t : CycleTree L) (v : List L) :
    cycle_tree.flatten t v = v ++ cycle_tree.flatten t [] := by
  induction t, v using cycle_tree.flatten.induct with
  | case1 v l => simp [cycle_tree.flatten]
  | case2 v c ws ih =>
    have hinner := foldl_acc_of_pointwise
      (fun (w : {x // x ∈ ws}) acc => cycle_tree.flatten w.1 acc) ws.attach
      (fun w _ acc => ih acc w)
    have houter := foldl_acc_of_pointwise
      (fun (_ : ℕ) acc => ws.attach.foldl (fun acc2 w => cycle_tree.flatten w.1 acc2) acc)
      (List.range c) (fun x _ acc => hinner acc)
    simp only [cycle_tree.flatten]
    exact houter v

lemma into_iter_leaf {L : Type} (l : L) : cycle_tree.into_iter (CycleTree.Leaf l) = [l] := by
  simp [cycle_tree.into_iter, cycle_tree.flatten]

/-- One pass of the inner `for w in ws` loop from an empty vector pushes
the concatenation of the children's flattenings. -/
lemma foldl_flatten_flatMap {L : Type} (ws : List (CycleTree L)) :
    ws.foldl (fun acc w => cycle_tree.flatten w acc) [] = ws.flatMap cycle_tree.into_iter := by
  induction ws with
  | nil => simp
  | cons w xs ih =>
    simp only [List.foldl_cons, List.flatMap_cons]
    rw [foldl_acc_of_pointwise (fun w acc => cycle_tree.flatten w acc) xs
      (fun y _ acc => flatten_append y acc) (cycle_tree.flatten w []), ih]
    rfl

lemma attach_foldl_flatten {L : Type} (ws : List (CycleTree L)) :
    ws.attach.foldl (fun acc2 w => cycle_tree.flatten w.1 acc2) [] =
      ws.flatMap cycle_tree.into_iter := by
  have hmap : List.map (fun (i : {x // x ∈ ws}) => (i : CycleTree L)) ws.attach = ws := by
    simp
  rw [show ws.attach.foldl (fun acc2 w => cycle_tree.flatten w.1 acc2) [] =
      (ws.attach.map (fun (i : {x // x ∈ ws}) => (i : CycleTree L))).foldl
        (fun acc w => cycle_tree.flatten w acc) [] by rw [List.foldl_map], hmap]
  exact foldl_flatten_flatMap ws

lemma flatten_replicate_comm {α : Type} (K : List α) (c : ℕ) :
    List.flatten (List.replicate c K) ++ K = K ++ List.flatten (List.replicate c K) := by
  induction c with
  | zero => simp
  | succ c ih =>
    simp only [List.replicate_succ, List.flatten_cons, List.append_assoc]
    rw [ih]

/-- The outer `for _ in 0..c` loop appends `c` copies of whatever one
inner pass pushes. -/
lemma foldl_range_const {α : Type} (K : List α) (g : List α → List α)
    (hg : ∀ acc, g acc = acc ++ K) (c : ℕ) :
    ∀ v, (List.range c).foldl (fun acc _ => g acc) v =
      v ++ List.flatten (List.replicate c K) := by
  induction c with
  | zero => intro v; simp
  | succ c ih =>
    intro v
    rw [List.range_succ, List.foldl_append]
    simp only [List.foldl_cons, List.foldl_nil]
    rw [ih v, hg, List.append_assoc, flatten_replicate_comm, List.replicate_succ,
      List.flatten_cons]

/-- A `Node` flattens to the concatenation of its children's flattenings,
that whole concatenation repeated `c` times. -/
lemma into_iter_node {L : Type} (c : ℕ) (ws : List (CycleTree L)) :
    cycle_tree.into_iter (CycleTree.Node (c, ws)) =
      List.flatten (List.replicate c (ws.flatMap cycle_tree.into_iter)) := by
  have hinner : ∀ acc, ws.attach.foldl (fun acc2 w => cycle_tree.flatten w.1 acc2) acc =
      acc ++ ws.flatMap cycle_tree.into_iter := by
    intro acc
    rw [foldl_acc_of_pointwise (fun (w : {x // x ∈ ws}) acc => cycle_tree.flatten w.1 acc)
      ws.attach (fun w _ v => flatten_append w.1 v) acc, attach_foldl_flatten]
  have h := foldl_range_const (ws.flatMap cycle_tree.into_iter)
    (fun acc => ws.attach.foldl (fun acc2 w => cycle_tree.flatten w.1 acc2) acc) hinner c []
  simp only [cycle_tree.into_iter, cycle_tree.flatten]
  simpa using h

/-- C7: flattening a `Leaf(v)` yields `[v]`; flattening `Node(n, children)`
yields the children's flattenings concatenated, that whole concatenation
repeated `n` times; and the spec's nested example flattens to
`[0,0,0,0,1,2,0,0,0,0,1,2]`. -/
theorem C7_flatten_semantics :
    (∀ (L : Type) (v : L), cycle_tree.into_iter (CycleTree.Leaf v) = [v]) ∧
    (∀ (L : Type) (n : ℕ) (children : List (CycleTree L)),
      cycle_tree.into_iter (CycleTree.Node (n, children)) =
        List.flatten (List.replicate n (children.flatMap cycle_tree.into_iter))) ∧
    cycle_tree.into_iter (CycleTree.Node (2,
      [CycleTree.Node (2, [CycleTree.Leaf 0, CycleTree.Leaf 0]),
       CycleTree.Leaf 1, CycleTree.Leaf (2 : ℕ)])) =
      [0, 0, 0, 0, 1, 2, 0, 0, 0, 0, 1, 2] := by
  refine ⟨fun L v => into_iter_leaf v, fun L n children => into_iter_node n children, ?_⟩
  simp [into_iter_node, into_iter_leaf]

/-- C8: a step whose cumulative cutoff has already passed when it is
reached (observed elapsed time strictly greater than the accumulated
cutoff `d + wait`) causes no `set_power` call for that step: the run
continues with the next step, with the cutoff still advanced by the step's
full duration, so step boundaries track absolute elapsed time. -/
theorem C8_skipped_step_emits_nothing (d : ℕ) (last_offset : ℤ) (wait power : ℕ)
    (obs : workout.StepObs) (rest : List ((ℕ × ℕ) × workout.StepObs))
    (h : d + wait < obs.reachElapsed) :
    workout.workout_run d last_offset (((wait, power), obs) :: rest) =
      workout.workout_run (d + wait) last_offset rest := by
  simp only [workout.workout_run]
  rw [if_neg (by omega)]

/-- Witness for C8: with a cutoff of 5 time units already passed at
elapsed time 10, the first step is skipped entirely and the trace equals
that of the remaining schedule. -/
theorem C8_witness :
    (0 : ℕ) + 5 < 10 ∧
    workout.workout_run 0 0 [((5, 100), ⟨10, []⟩), ((5, 7), ⟨9, []⟩)] =
      workout.workout_run 5 0 [((5, 7), ⟨9, []⟩)] :=
  ⟨by decide, C8_skipped_step_emits_nothing 0 0 5 100 ⟨10, []⟩ [((5, 7), ⟨9, []⟩)] (by decide)⟩

/-- C10: the power passed to `set_power` is
`((power as i16) + offset) as u16`, which equals the nominal power plus
the offset reduced modulo `2 ^ 16`: a negative sum wraps to a large u16
value (100 - 200 gives 65436, not 0), and a nominal power above 32767 is
first reinterpreted as a negative i16 (40000 reads as -25536) without
changing the final 16-bit value (40000 + 0 gives 40000). -/
theorem C10_set_power_cast (power : ℕ) (offset : ℤ) (_hp : power < 65536)
    (_h1 : -32768 ≤ offset) (_h2 : offset < 32768) :
    workout.set_power_arg power offset = (((power : ℤ) + offset) % 65536).toNat ∧
    workout.set_power_arg 100 (-200) = 65436 ∧
    i16_of_u16 40000 = -25536 ∧
    workout.set_power_arg 40000 0 = 40000 := by
  refine ⟨?_, by decide, by decide, by decide⟩
  unfold workout.set_power_arg u16_of_i16 wrap_i16 i16_of_u16
  split_ifs <;> omega

/-- Witness for C10: a 100 W step with a live offset of -200 W commands
65436 W rather than clamping at zero. -/
theorem C10_witness :
    workout.set_power_arg 100 (-200) = (((100 : ℤ) + (-200)) % 65536).toNat ∧
    workout.set_power_arg 100 (-200) = 65436 :=
  ⟨(C10_set_power_cast 100 (-200) (by decide) (by decide) (by decide)).1,
   (C10_set_power_cast 100 (-200) (by decide) (by decide) (by decide)).2.1⟩
